import Mathlib

set_option maxRecDepth 16000

/-!
Verification of the job-processing sidecar (src/sidecar/job_processor.py and
src/sidecar/tool_api.py) against its specification.

The Python sources are shallowly embedded below.  External collaborators
(the HTTP queue service, the `requests` library, the `fabric` subprocess, the
transcript API) are modelled as explicit environment records of oracles, so
every embedded function is a pure, executable Lean definition.  Machine
integers do not overflow in the source's ranges, so `Nat` is used throughout.
-/

namespace Sidecar

/-! ## URL parsing (model of `urllib.parse.urlparse` as used by the source)

`tool_api.py` uses `urlparse` to read `netloc`, `path` and `query` of a URL.
The model below follows CPython's `urlsplit`: an optional `scheme:` prefix is
stripped when the text before the first colon is a letter followed by
letters/digits/`+`/`-`/`.`; a netloc is present only when the remainder starts
with `//` and extends to the first of `/`, `?`, `#`; the fragment is split at
the first `#`, then the query at the first `?`.  Percent-decoding is not
applied (the source never relies on it). -/

def isSchemeRestChar (c : Char) : Bool :=
  c.isAlphanum || c == '+' || c == '-' || c == '.'

/-- Strip a leading `scheme:` from the character list when the prefix before
the first colon is a valid scheme. -/
def stripScheme (cs : List Char) : List Char :=
  let pre := cs.takeWhile (fun c => c ≠ ':')
  if pre.length < cs.length then
    match pre with
    | [] => cs
    | c0 :: rest =>
      if c0.isAlpha && rest.all isSchemeRestChar then cs.drop (pre.length + 1) else cs
  else cs

def isNetlocEnd (c : Char) : Bool :=
  c == '/' || c == '?' || c == '#'

structure ParsedUrl where
  netloc : String
  path : String
  query : String
  fragment : String
deriving DecidableEq, Repr

/-- Model of `urllib.parse.urlparse` restricted to the fields the source reads. -/
def urlparse (url : String) : ParsedUrl :=
  let rest := stripScheme url.data
  let netloc :=
    match rest with
    | '/' :: '/' :: r => r.takeWhile (fun c => !isNetlocEnd c)
    | _ => []
  let rest2 :=
    match rest with
    | '/' :: '/' :: r => r.dropWhile (fun c => !isNetlocEnd c)
    | _ => rest
  let beforeFrag := rest2.takeWhile (fun c => c ≠ '#')
  let frag := rest2.drop (beforeFrag.length + 1)
  let path := beforeFrag.takeWhile (fun c => c ≠ '?')
  let query := beforeFrag.drop (path.length + 1)
  ⟨⟨netloc⟩, ⟨path⟩, ⟨query⟩, ⟨frag⟩⟩

/-- The recognized video hosts of `is_youtube_url` (tool_api.py line 115). -/
def videoHosts : List String :=
  ["youtube.com", "www.youtube.com", "youtu.be", "m.youtube.com"]

/-- Embedding of `is_youtube_url` (tool_api.py lines 111-115). -/
def is_youtube_url (url : String) : Bool :=
  videoHosts.contains (urlparse url).netloc

/-- Does the character list start with the given needle? -/
def listStartsWith : List Char → List Char → Bool
  | [], _ => true
  | _ :: _, [] => false
  | n :: ns, h :: hs => n == h && listStartsWith ns hs

/-- Does the character list contain the needle as a contiguous segment? -/
def listContainsSeg (needle : List Char) : List Char → Bool
  | [] => listStartsWith needle []
  | c :: cs => listStartsWith needle (c :: cs) || listContainsSeg needle cs

/-- Substring containment, modelling Python's `needle in haystack` (the source
only tests the literal `'youtube.com'`). -/
def strContains (haystack needle : String) : Bool :=
  listContainsSeg needle.data haystack.data

/-- Split a character list on every occurrence of a separator character
(Python `str.split(sep)` for a one-character separator). -/
def splitOnChar (sep : Char) : List Char → List (List Char)
  | [] => [[]]
  | c :: cs =>
    let r := splitOnChar sep cs
    if c = sep then [] :: r
    else
      match r with
      | [] => [[c]]
      | l :: ls => (c :: l) :: ls

/-- Python `part.split('=', 1)` followed by the `parse_qs` filtering: a part
without `=` or with an empty value is dropped (CPython's default
`keep_blank_values=False`). -/
def partKV (part : List Char) : Option (List Char × List Char) :=
  let k := part.takeWhile (fun c => c ≠ '=')
  if k.length = part.length then none
  else
    let v := part.drop (k.length + 1)
    if v = [] then none else some (k, v)

/-- Model of `parse_qs(query).get('v', [None])[0]`: the first value bound to
key `v` among `&`-separated `key=value` parts.  Percent/plus decoding is not
applied (video ids contain no escapes). -/
def parse_qs_v (query : String) : Option String :=
  let pairs := (splitOnChar '&' query.data).filterMap partKV
  (pairs.find? fun p => p.1 = "v".data).map fun p => ⟨p.2⟩

/-- Python `s.lstrip('/')`. -/
def lstripSlash (s : String) : String :=
  ⟨s.data.dropWhile (fun c => c = '/')⟩

/-- Model of the regex match `^/(v|embed)/([^/?]+)` on a URL path. -/
def matchVidPath (path : String) : Option String :=
  match path.data with
  | '/' :: 'v' :: '/' :: rest =>
    let vid := rest.takeWhile (fun c => c ≠ '/' && c ≠ '?')
    if vid = [] then none else some ⟨vid⟩
  | '/' :: 'e' :: 'm' :: 'b' :: 'e' :: 'd' :: '/' :: rest =>
    let vid := rest.takeWhile (fun c => c ≠ '/' && c ≠ '?')
    if vid = [] then none else some ⟨vid⟩
  | _ => none

/-- Embedding of `extract_video_id` (tool_api.py lines 140-160).  Python's
`''` return value (from `youtu.be/` with an empty path) is represented as
`some ""`; callers test emptiness separately, mirroring `if not video_id`. -/
def extract_video_id (url : String) : Option String :=
  let parsed := urlparse url
  if parsed.netloc = "youtu.be" then some (lstripSlash parsed.path)
  else if strContains parsed.netloc "youtube.com" then
    if parsed.path = "/watch" then parse_qs_v parsed.query
    else matchVidPath parsed.path
  else none

/-! ## Text extraction (embedding of `extract_text_from_html`, tool_api.py 242-255)

The pipeline removes `<script...>...</script>` and `<style...>...</style>`
blocks (case-insensitively, non-greedy), replaces every `<...>` tag with a
space, decodes HTML entities (`html.unescape` is external; its core named and
decimal-numeric entities are modelled), collapses whitespace runs to a single
space and strips the ends.  The scanners use explicit fuel equal to the input
length; every step consumes one unit and at least one character, so the fuel
never runs out on the actual input. -/

/-- Case-insensitive `listStartsWith` (the source regexes use `re.IGNORECASE`). -/
def listStartsWithCI : List Char → List Char → Bool
  | [], _ => true
  | _ :: _, [] => false
  | n :: ns, h :: hs => n.toLower == h.toLower && listStartsWithCI ns hs

/-- Match `<tag[^>]*>` at the head of the list (case-insensitive); return the
remainder after the closing `>` of the opening tag. -/
def matchOpenAt (tag : List Char) (s : List Char) : Option (List Char) :=
  if listStartsWithCI ('<' :: tag) s then
    let rest := s.drop (tag.length + 1)
    let attrs := rest.takeWhile (fun c => c ≠ '>')
    match rest.drop attrs.length with
    | '>' :: r => some r
    | _ => none
  else none

/-- Find the first (case-insensitive) occurrence of `close`; return the text
before it and the remainder after it. -/
def findCloseCI (close : List Char) : Nat → List Char → Option (List Char × List Char)
  | _, [] => none
  | 0, _ => none
  | fuel + 1, c :: cs =>
    if listStartsWithCI close (c :: cs) then some ([], (c :: cs).drop close.length)
    else
      match findCloseCI close fuel cs with
      | some (mid, after) => some (c :: mid, after)
      | none => none

/-- Remove every `<tag[^>]*>.*?</tag>` block (model of the two `re.sub` calls
with `re.DOTALL | re.IGNORECASE`); an opening tag with no closing tag is left
in place, as the regex then has no match at that position. -/
def stripBlocks (tag : List Char) : Nat → List Char → List Char
  | _, [] => []
  | 0, s => s
  | fuel + 1, c :: cs =>
    match matchOpenAt tag (c :: cs) with
    | some afterOpen =>
      match findCloseCI ('<' :: '/' :: tag ++ ['>']) afterOpen.length afterOpen with
      | some (_, after) => stripBlocks tag fuel after
      | none => c :: stripBlocks tag fuel cs
    | none => c :: stripBlocks tag fuel cs

/-- Replace every `<[^>]+>` tag with a single space (model of
`re.sub(r'<[^>]+>', ' ', text)`); a lone `<>` or an unclosed `<` is kept. -/
def stripTags : Nat → List Char → List Char
  | _, [] => []
  | 0, s => s
  | fuel + 1, '<' :: cs =>
    let inner := cs.takeWhile (fun c => c ≠ '>')
    match cs.drop inner.length, inner with
    | '>' :: r, _ :: _ => ' ' :: stripTags fuel r
    | _, _ => '<' :: stripTags fuel cs
  | fuel + 1, c :: cs => c :: stripTags fuel cs

/-- Decode a decimal numeric character reference body (digits before `;`). -/
def decodeDecimal (ds : List Char) : Option Char :=
  if ds ≠ [] && ds.all Char.isDigit then
    let n := ds.foldl (fun acc c => acc * 10 + (c.toNat - '0'.toNat)) 0
    if n < 1114112 then some (Char.ofNat n) else none
  else none

/-- Model of `html.unescape` restricted to the core named entities and decimal
numeric references; unknown entity text is kept verbatim, as in CPython. -/
def unescapeEntities : Nat → List Char → List Char
  | _, [] => []
  | 0, s => s
  | fuel + 1, '&' :: cs =>
    if listStartsWith "amp;".data cs then '&' :: unescapeEntities fuel (cs.drop 4)
    else if listStartsWith "lt;".data cs then '<' :: unescapeEntities fuel (cs.drop 3)
    else if listStartsWith "gt;".data cs then '>' :: unescapeEntities fuel (cs.drop 3)
    else if listStartsWith "quot;".data cs then '"' :: unescapeEntities fuel (cs.drop 5)
    else if listStartsWith "apos;".data cs then
      Char.ofNat 39 :: unescapeEntities fuel (cs.drop 5)
    else if listStartsWith "#".data cs then
      let ds := (cs.drop 1).takeWhile (fun c => c ≠ ';')
      match (cs.drop 1).drop ds.length, decodeDecimal ds with
      | ';' :: r, some c => c :: unescapeEntities fuel r
      | _, _ => '&' :: unescapeEntities fuel cs
    else '&' :: unescapeEntities fuel cs
  | fuel + 1, c :: cs => c :: unescapeEntities fuel cs

/-- Python's `\s` character class (ASCII range). -/
def isPySpace (c : Char) : Bool :=
  c == ' ' || c == '\t' || c == '\n' || c == '\r' || c == '\x0b' || c == '\x0c'

/-- Collapse runs of whitespace to a single space: first map every whitespace
character to a space, then drop a space followed by another space (model of
`re.sub(r'\s+', ' ', text)`). -/
def dedupSpace : List Char → List Char
  | [] => []
  | [c] => [c]
  | c1 :: c2 :: cs =>
    if c1 == ' ' && c2 == ' ' then dedupSpace (c2 :: cs)
    else c1 :: dedupSpace (c2 :: cs)

/-- Python `str.strip()`. -/
def pyStrip (l : List Char) : List Char :=
  ((l.dropWhile isPySpace).reverse.dropWhile isPySpace).reverse

/-- Embedding of `extract_text_from_html` (tool_api.py lines 242-255). -/
def extract_text_from_html (html : String) : String :=
  let s1 := stripBlocks "script".data html.data.length html.data
  let s2 := stripBlocks "style".data s1.length s1
  let s3 := stripTags s2.length s2
  let s4 := unescapeEntities s3.length s3
  let s5 := dedupSpace (s4.map fun c => if isPySpace c then ' ' else c)
  ⟨pyStrip s5⟩

/-! ## The tool execution service (tool_api.py) -/

/-- Environment of external collaborators of `tool_api.py`: whether the
`fabric` CLI is on the PATH (`shutil.which`), the outcome of a `fabric -p
<pattern>` subprocess run on given stdin content (`some` of the stripped
stdout on exit code 0, `none` on nonzero exit, timeout or exception), the
outcome of `requests.get(url)` (`Except.error` carries `str(e)` of the raised
exception, `Except.ok` the response text), and the transcript returned by
`get_youtube_transcript` for a video id (`none` when the captioning API
raises). -/
structure ToolEnv where
  fabricAvailable : Bool
  patternOut : String → String → Option String
  fetch : String → Except String String
  transcript : String → Option String

/-- Embedding of `run_fabric_pattern` (tool_api.py lines 258-280): `none` when
fabric is missing, the subprocess fails, or its stripped output is empty.
The `timeout` argument does not influence the modelled outcome. -/
def run_fabric_pattern (env : ToolEnv) (content pattern : String) : Option String :=
  if env.fabricAvailable then
    match env.patternOut content pattern with
    | some o => if o = "" then none else some o
    | none => none
  else none

/-- Python `str.title()` applied after `replace('_', ' ')` (ASCII inputs):
a letter is uppercased when the previous character is not a letter and
lowercased otherwise. -/
def pyTitleAux : Bool → List Char → List Char
  | _, [] => []
  | prevAlpha, c :: cs =>
    (if c.isAlpha then (if prevAlpha then c.toLower else c.toUpper) else c)
      :: pyTitleAux c.isAlpha cs

/-- `pattern.replace('_', ' ').title()` as used for the section headings. -/
def patternTitle (pattern : String) : String :=
  ⟨pyTitleAux false (pattern.data.map fun c => if c = '_' then ' ' else c)⟩

/-- Python `sep.join(parts)`. -/
def pyJoin (sep : String) : List String → String
  | [] => ""
  | [s] => s
  | s :: rest => s ++ sep ++ pyJoin sep rest

/-- The text below a pattern's heading: the pattern's output, or the failure
placeholder when the pattern failed or returned empty output. -/
def sectionBody (env : ToolEnv) (text pattern : String) : String :=
  match run_fabric_pattern env text pattern with
  | some out => out
  | none => "*Pattern execution failed*"

/-- One element of the analyzers' `results` list (tool_api.py lines 228-235
and 338-345): the pattern's output (or the failure placeholder) under the
pattern's own heading. -/
def renderSection (env : ToolEnv) (text pattern : String) : String :=
  "## " ++ patternTitle pattern ++ "\n\n" ++ sectionBody env text pattern

/-- The mode→patterns table of `run_youtube_analyzer` (tool_api.py 219-225),
including the `.get(mode, patterns["quick"])` default. -/
def youtubePatterns (mode : String) : List String :=
  if mode = "quick" then ["extract_wisdom"]
  else if mode = "standard" then ["extract_wisdom", "extract_insights", "summarize"]
  else if mode = "deep" then
    ["extract_wisdom", "extract_insights", "extract_recommendations",
     "extract_references", "summarize"]
  else ["extract_wisdom"]

/-- The mode→patterns table of `run_content_analyzer` (tool_api.py 328-334),
including the `.get(mode, patterns["quick"])` default. -/
def contentPatterns (mode : String) : List String :=
  if mode = "quick" then ["summarize"]
  else if mode = "standard" then ["summarize", "extract_wisdom"]
  else if mode = "deep" then
    ["summarize", "extract_wisdom", "extract_insights", "extract_recommendations"]
  else ["summarize"]

structure ToolResult where
  content : String
  format : String
deriving DecidableEq, Repr

/-- The `# Analysis Unavailable` body shared by both analyzers. -/
def analysisUnavailable (url mode : String) : ToolResult :=
  ⟨"# Analysis Unavailable\n\nThe fabric CLI is not installed.\n\nURL: " ++ url
    ++ "\nMode: " ++ mode, "markdown"⟩

/-- The `# Invalid URL` body (tool_api.py 200-204). -/
def invalidUrlResult (url : String) : ToolResult :=
  ⟨"# Invalid URL\n\nCould not extract video ID from URL.\n\nURL: " ++ url, "markdown"⟩

/-- The `# No Transcript` body (tool_api.py 210-214). -/
def noTranscriptResult (url vid : String) : ToolResult :=
  ⟨"# No Transcript\n\nNo captions available for this video.\n\nURL: " ++ url
    ++ "\nVideo ID: " ++ vid, "markdown"⟩

/-- The `# Fetch Failed` body (tool_api.py 312-316). -/
def fetchFailedResult (url err : String) : ToolResult :=
  ⟨"# Fetch Failed\n\nCould not fetch URL: " ++ url ++ "\n\nError: " ++ err, "markdown"⟩

/-- The `# Insufficient Content` body (tool_api.py 321-325). -/
def insufficientContentResult (url : String) : ToolResult :=
  ⟨"# Insufficient Content\n\nThe page has too little text content to analyze.\n\nURL: "
    ++ url, "markdown"⟩

/-- Embedding of `run_youtube_analyzer` (tool_api.py lines 179-239).  The
Python test `if not transcript or len(transcript) < 100` is `none`, or `some
t` with `t.length < 100` (an empty transcript has length 0 < 100). -/
def run_youtube_analyzer (env : ToolEnv) (url mode : String) : ToolResult :=
  if !env.fabricAvailable then analysisUnavailable url mode
  else
    match extract_video_id url with
    | none => invalidUrlResult url
    | some vid =>
      if vid = "" then invalidUrlResult url
      else
        match env.transcript vid with
        | none => noTranscriptResult url vid
        | some t =>
          if t.length < 100 then noTranscriptResult url vid
          else
            ⟨"# YouTube Video Analysis\n\n**URL:** " ++ url ++ "\n**Mode:** " ++ mode
              ++ "\n\n---\n\n"
              ++ pyJoin "\n\n---\n\n" ((youtubePatterns mode).map (renderSection env t)),
             "markdown"⟩

/-- Embedding of `run_content_analyzer` (tool_api.py lines 283-349). -/
def run_content_analyzer (env : ToolEnv) (url mode : String) : ToolResult :=
  if !env.fabricAvailable then analysisUnavailable url mode
  else
    match env.fetch url with
    | .error e => fetchFailedResult url e
    | .ok html =>
      let text := extract_text_from_html html
      if text.length < 100 then insufficientContentResult url
      else
        ⟨"# Content Analysis\n\n**URL:** " ++ url ++ "\n**Domain:** "
          ++ (urlparse url).netloc ++ "\n**Mode:** " ++ mode ++ "\n\n---\n\n"
          ++ pyJoin "\n\n---\n\n" ((contentPatterns mode).map (renderSection env text)),
         "markdown"⟩

/-- The `input` dictionary of an execute request as read by `run_tool`:
`input_data.get("url")` and `input_data.get("mode", "quick")`. -/
structure ToolInput where
  url : Option String
  mode : Option String
deriving DecidableEq, Repr

/-- Embedding of `run_tool` (tool_api.py lines 118-137).  A raised
`ValueError` is the `Except.error` case carrying `str(e)`.  Python's
`if not url` is true for a missing url and for the empty string. -/
def run_tool (env : ToolEnv) (input : ToolInput) : Except String ToolResult :=
  let mode := input.mode.getD "quick"
  match input.url with
  | none => .error "URL is required"
  | some url =>
    if url = "" then .error "URL is required"
    else if is_youtube_url url then .ok (run_youtube_analyzer env url mode)
    else .ok (run_content_analyzer env url mode)

/-- The response body of `POST /execute` (the `execution_time` field, a wall
clock, is not modelled). -/
structure ExecuteResponse where
  success : Bool
  result : Option ToolResult
  error : Option String
deriving DecidableEq, Repr

/-- Embedding of the `execute_tool` endpoint (tool_api.py lines 83-108):
the pair is (HTTP status, response body).  FastAPI returns HTTP 200 for a
normally returned response model, in both the success and the caught-exception
branch. -/
def execute_tool (env : ToolEnv) (input : ToolInput) : Nat × ExecuteResponse :=
  match run_tool env input with
  | .ok r => (200, ⟨true, some r, none⟩)
  | .error e => (200, ⟨false, none, some e⟩)

/-! ## The dispatcher (job_processor.py)

A job is a JSON dictionary; each field the code reads may be absent, so the
fields are `Option`s and a `job["key"]` subscript on an absent key raises
`KeyError`, modelled by the `Except PyError` channel.  The queue service and
the executor endpoint are oracles in a `DispatchEnv`; the webhook and execute
calls are also recorded as an `Event` trace so that theorems can speak about
which calls a cycle performs. -/

inductive PyError where
  | keyError (key : String)
deriving DecidableEq, Repr

/-- A pending job as returned by `GET /api/jobs` (fields may be missing). -/
structure Job where
  id : Option String
  input : Option ToolInput
  webhook_secret : Option String
deriving DecidableEq, Repr

/-- The body of the `POST /api/webhook/job-complete` call built by
`report_job_complete` (job_processor.py lines 105-114): `result` is attached
only on success with a non-`None` result, `error` only on failure with a
non-empty error string. -/
structure ReportPayload where
  job_id : String
  status : String
  webhook_secret : String
  result : Option ToolResult
  error : Option String
deriving DecidableEq, Repr

def mkReportPayload (jid secret : String) (success : Bool)
    (result : Option ToolResult) (error : Option String) : ReportPayload :=
  { job_id := jid
    status := if success then "completed" else "failed"
    webhook_secret := secret
    result := if success then result else none
    error :=
      if success then none
      else
        match error with
        | some e => if e = "" then none else some e
        | none => none }

/-- An outbound call of the dispatcher: the mark-started webhook, the
`POST /execute` call, or the job-complete webhook. -/
inductive Event where
  | markStarted (jobId : String)
  | execute (jobId : String)
  | report (payload : ReportPayload)
deriving DecidableEq, Repr

def Event.isExecute : Event → Bool
  | .execute _ => true
  | _ => false

def Event.isReport : Event → Bool
  | .report _ => true
  | _ => false

/-- Outcome of the dispatcher's `requests.post` to `POST /execute`:
a timeout (`requests.Timeout`), another `requests.RequestException`
(unreachable host, or a non-2xx status raised by `raise_for_status` — `msg`
is `str(e)`), or a 2xx response with its parsed JSON body. -/
inductive CallResult where
  | timeout
  | reqError (msg : String)
  | ok (body : ExecuteResponse)
deriving DecidableEq, Repr

/-- Environment of the dispatcher's collaborators: the outcome of the
mark-started webhook for a job id, the outcome of the `POST /execute` call
for an input payload, and the outcome of the job-complete webhook
(`report_job_complete` returns `False` on a `RequestException`, never
raising). -/
structure DispatchEnv where
  markStarted : String → Bool
  callExecute : ToolInput → CallResult
  reportOk : ReportPayload → Bool

/-- Embedding of `execute_job` (job_processor.py lines 69-93).  The
`job["id"]` and `job["input"]` subscripts run before the `try`, so their
`KeyError` escapes; everything inside the `try` is caught and mapped to a
`(False, None, error)` triple. -/
def execute_job (env : DispatchEnv) (job : Job) :
    Except PyError (Bool × Option ToolResult × Option String) × List Event :=
  match job.id with
  | none => (.error (.keyError "id"), [])
  | some jid =>
    match job.input with
    | none => (.error (.keyError "input"), [])
    | some inp =>
      match env.callExecute inp with
      | .ok body =>
        if body.success then (.ok (true, body.result, none), [.execute jid])
        else (.ok (false, none, some (body.error.getD "Unknown error")), [.execute jid])
      | .timeout => (.ok (false, none, some "Execution timed out"), [.execute jid])
      | .reqError m => (.ok (false, none, some ("API error: " ++ m)), [.execute jid])

/-- Embedding of `process_job` (job_processor.py lines 128-157): read the id
(`KeyError` if absent), mark started (on failure skip the job, returning
`False`), execute, then report completion; the return value is
`success and reported`. -/
def process_job (env : DispatchEnv) (job : Job) : Except PyError Bool × List Event :=
  match job.id with
  | none => (.error (.keyError "id"), [])
  | some jid =>
    let secret := job.webhook_secret.getD ""
    if env.markStarted jid then
      match execute_job env job with
      | (.error e, evs) => (.error e, Event.markStarted jid :: evs)
      | (.ok (success, result, error), evs) =>
        let payload := mkReportPayload jid secret success result error
        let reported := env.reportOk payload
        (.ok (success && reported), Event.markStarted jid :: evs ++ [Event.report payload])
    else (.ok false, [Event.markStarted jid])

/-- The `for job in jobs` loop of `run_processor` (job_processor.py lines
205-209) with its per-job `try/except`.  The handler logs
`f"Error processing job {job['id']}: {e}"`: when the job has an id the
exception is swallowed and iteration continues, but when the id is missing
the f-string's `job['id']` subscript raises `KeyError` inside the handler and
the exception escapes the loop. -/
def processJobsLoop (env : DispatchEnv) : List Job → Except PyError Unit × List Event
  | [] => (.ok (), [])
  | job :: rest =>
    match process_job env job with
    | (.ok _, evs) =>
      let (r2, evs2) := processJobsLoop env rest
      (r2, evs ++ evs2)
    | (.error _, evs) =>
      match job.id with
      | some _ =>
        let (r2, evs2) := processJobsLoop env rest
        (r2, evs ++ evs2)
      | none => (.error (.keyError "id"), evs)

/-- Embedding of `calculate_backoff` (job_processor.py lines 160-177); the
loop calls it with the default `min_backoff = 1`, `max_backoff = 30`. -/
def calculate_backoff (consecutive_errors min_backoff max_backoff : Nat) : Nat :=
  if consecutive_errors = 0 then 0
  else min max_backoff (min_backoff * 2 ^ (consecutive_errors - 1))

def POLL_INTERVAL : Nat := 5

/-- What one iteration of the `while True` loop leaves behind: the
consecutive-error counter at the start of the next cycle, the seconds slept,
whether an exception escaped the cycle body (and was caught by the outer
`except Exception` handler), and the outbound calls made. -/
structure CycleResult where
  counter : Nat
  sleepSeconds : Nat
  raised : Bool
  events : List Event
deriving DecidableEq, Repr

/-- Embedding of one iteration of the `run_processor` loop (job_processor.py
lines 197-229).  `jobs` is the list returned by `poll_for_jobs`, which
catches every `RequestException` and returns `[]` (so polling never raises).
The reset `consecutive_errors = 0` sits inside `if jobs:`, so a cycle whose
poll returned an empty list leaves the counter unchanged. -/
def runCycle (env : DispatchEnv) (jobs : List Job) (consecutiveErrors : Nat) : CycleResult :=
  if jobs.isEmpty then ⟨consecutiveErrors, POLL_INTERVAL, false, []⟩
  else
    match processJobsLoop env jobs with
    | (.ok _, evs) => ⟨0, POLL_INTERVAL, false, evs⟩
    | (.error _, evs) =>
      let n := consecutiveErrors + 1
      let b := calculate_backoff n 1 30
      ⟨n, if b > 0 then b else POLL_INTERVAL, true, evs⟩

/-! ## Markdown second-level headings

A second-level section heading of a markdown body is a line that starts with
`## ` (exactly two hashes and a space), which is how both analyzers introduce
each pattern's section.  `h2Count` counts them; the claims about section
structure are stated with it. -/

def splitLines (l : List Char) : List (List Char) := splitOnChar '\n' l

def startsH2 (l : List Char) : Bool := listStartsWith "## ".data l

def filterH2 (l : List Char) : List (List Char) := (splitLines l).filter startsH2

/-- The second-level heading lines of a markdown string, in order. -/
def h2Lines (s : String) : List (List Char) := filterH2 s.data

def h2Count (s : String) : Nat := (h2Lines s).length

/-- `s` contains no second-level heading line. -/
abbrev noH2 (s : String) : Prop := filterH2 s.data = []

instance {ε α : Type} [DecidableEq ε] [DecidableEq α] : DecidableEq (Except ε α) :=
  fun a b =>
    match a, b with
    | .ok x, .ok y =>
      if h : x = y then .isTrue (h ▸ rfl) else .isFalse (fun he => h (Except.ok.inj he))
    | .error x, .error y =>
      if h : x = y then .isTrue (h ▸ rfl) else .isFalse (fun he => h (Except.error.inj he))
    | .ok _, .error _ => .isFalse (fun he => Except.noConfusion he)
    | .error _, .ok _ => .isFalse (fun he => Except.noConfusion he)

/-- The heading line the analyzers generate for a pattern. -/
def headingLineOf (pattern : String) : List Char :=
  '#' :: '#' :: ' ' :: (patternTitle pattern).data

/-! ## Concrete instances used to evaluate the embedded code -/

/-- A queue/executor environment in which every call succeeds. -/
def happyDispatchEnv : DispatchEnv :=
  ⟨fun _ => true, fun _ => .ok ⟨true, some ⟨"ok", "markdown"⟩, none⟩, fun _ => true⟩

/-- An environment whose mark-started webhook always fails. -/
def denvMarkFail : DispatchEnv :=
  ⟨fun _ => false, fun _ => .timeout, fun _ => false⟩

/-- A well-formed pending job. -/
def jobB : Job := ⟨some "b", some ⟨some "https://example.com/y", none⟩, some "s"⟩

/-- A job whose dictionary is missing the `id` field. -/
def jobNoId : Job := ⟨none, some ⟨some "https://example.com/x", none⟩, some "s"⟩

/-- A job with an `id` but missing the `input` field. -/
def jobNoInput : Job := ⟨some "a", none, some "s"⟩

/-- A tool environment with no fabric CLI installed. -/
def envNoFabric : ToolEnv :=
  ⟨false, fun _ _ => none, fun _ => .error "", fun _ => none⟩

/-- A tool environment whose page fetch raises. -/
def envFetchFail : ToolEnv :=
  ⟨true, fun _ _ => none, fun _ => .error "boom", fun _ => none⟩

/-- A tool environment whose transcript fetch yields a short transcript. -/
def envShortTranscript : ToolEnv :=
  ⟨true, fun _ _ => none, fun _ => .error "x", fun _ => some "short"⟩

/-- A tool environment whose fetched page strips to fewer than 100 characters. -/
def envShortPage : ToolEnv :=
  ⟨true, fun _ _ => none, fun _ => .ok "<p>tiny</p>", fun _ => none⟩

/-- A plain page body longer than 100 characters that HTML-text extraction
leaves unchanged. -/
def htmlLong : String :=
  "This is a plain page with enough visible text to pass the threshold of one hundred characters for analysis runs."

/-- A tool environment whose `extract_wisdom` pattern output itself contains a
markdown second-level heading line. -/
def envInject : ToolEnv :=
  ⟨true, fun _ p => if p = "extract_wisdom" then some "## Injected" else none,
   fun _ => .ok htmlLong, fun _ => none⟩

/-- A tool environment whose patterns all output plain one-line text. -/
def envBenign : ToolEnv :=
  ⟨true, fun _ _ => some "hello world", fun _ => .ok htmlLong, fun _ => some htmlLong⟩

/-- The dispatcher wired to the embedded executor with a failing page fetch:
`POST /execute` returns the body `execute_tool envFetchFail` produces. -/
def denvC10 : DispatchEnv :=
  ⟨fun _ => true, fun inp => .ok (execute_tool envFetchFail inp).2, fun _ => true⟩

end Sidecar

namespace Sidecar

theorem splitOnChar_ne_nil (sep : Char) (l : List Char) : splitOnChar sep l ≠ [] := by
  induction l with
  | nil => simp [splitOnChar]
  | cons c cs ih =>
    simp only [splitOnChar]
    split
    · simp
    · cases h : splitOnChar sep cs with
      | nil => simp
      | cons a as => simp [h]

theorem splitOnChar_append_sep (sep : Char) (a b : List Char) :
    splitOnChar sep (a ++ sep :: b) = splitOnChar sep a ++ splitOnChar sep b := by
  induction a with
  | nil => simp [splitOnChar]
  | cons c cs ih =>
    by_cases hc : c = sep
    · subst hc
      simp [splitOnChar, ih]
    · simp only [List.cons_append, splitOnChar, List.append_eq, if_neg hc, ih]
      cases h : splitOnChar sep cs with
      | nil => exact absurd h (splitOnChar_ne_nil sep cs)
      | cons l ls => simp [h]

theorem splitOnChar_no_sep (sep : Char) (x : List Char) (h : ∀ c ∈ x, c ≠ sep) :
    splitOnChar sep x = [x] := by
  induction x with
  | nil => simp [splitOnChar]
  | cons c cs ih =>
    have hc : c ≠ sep := h c (List.mem_cons_self c cs)
    have ih' := ih fun d hd => h d (List.mem_cons_of_mem c hd)
    simp [splitOnChar, if_neg hc, ih']

theorem splitOnChar_append_no_sep (sep : Char) (x y : List Char) (h : ∀ c ∈ x, c ≠ sep) :
    splitOnChar sep (x ++ y) =
      (x ++ (splitOnChar sep y).headI) :: (splitOnChar sep y).tail := by
  induction x with
  | nil =>
    cases hy : splitOnChar sep y with
    | nil => exact absurd hy (splitOnChar_ne_nil sep y)
    | cons l ls => simp [hy]
  | cons c cs ih =>
    have hc : c ≠ sep := h c (List.mem_cons_self c cs)
    have ih' := ih fun d hd => h d (List.mem_cons_of_mem c hd)
    simp only [List.cons_append, splitOnChar, List.append_eq, if_neg hc, ih']

theorem splitLines_ne_nil (l : List Char) : splitLines l ≠ [] :=
  splitOnChar_ne_nil '\n' l

theorem filterH2_split (a b : List Char) :
    filterH2 (a ++ '\n' :: b) = filterH2 a ++ filterH2 b := by
  simp [filterH2, splitLines, splitOnChar_append_sep, List.filter_append]

theorem filterH2_cons_nl (b : List Char) : filterH2 ('\n' :: b) = filterH2 b := by
  simp [filterH2, splitLines, splitOnChar, startsH2, listStartsWith]

theorem filter_tail_of_filter_nil {p : List Char → Bool} {l : List (List Char)}
    (h : l.filter p = []) : l.tail.filter p = [] := by
  have hsub : List.Sublist (l.tail.filter p) (l.filter p) :=
    List.Sublist.filter p (List.tail_sublist l)
  rw [h] at hsub
  exact List.sublist_nil.mp hsub

/-- Any single line spliced after a heading-blocking prefix and terminated by a
newline contributes no `## ` heading: the filtered lines of
`x ++ (u ++ '\n' :: rest)` are those of `rest`, provided every extension of
`x` fails `startsH2` and `u` has no heading line. -/
theorem filterH2_splice (x u rest : List Char)
    (hnl : ∀ c ∈ x, c ≠ '\n')
    (hblock : ∀ z, startsH2 (x ++ z) = false)
    (hu : filterH2 u = []) :
    filterH2 (x ++ (u ++ '\n' :: rest)) = filterH2 rest := by
  have h1 : filterH2 (x ++ u) = (splitLines u).tail.filter startsH2 := by
    unfold filterH2
    rw [splitLines, splitLines, splitOnChar_append_no_sep '\n' x u hnl]
    simp [List.filter_cons, hblock ((splitOnChar '\n' u).headI)]
  have h2 : (splitLines u).tail.filter startsH2 = [] :=
    filter_tail_of_filter_nil hu
  calc filterH2 (x ++ (u ++ '\n' :: rest))
      = filterH2 ((x ++ u) ++ '\n' :: rest) := by rw [List.append_assoc]
    _ = filterH2 (x ++ u) ++ filterH2 rest := filterH2_split _ _
    _ = filterH2 rest := by rw [h1, h2, List.nil_append]

/-- A pattern section contributes exactly its own heading line, provided the
title has no newline and the body below the heading has no heading line. -/
theorem filterH2_section (t : List Char) (body : List Char)
    (ht : ∀ c ∈ t, c ≠ '\n')
    (hb : filterH2 body = []) :
    filterH2 ('#' :: '#' :: ' ' :: (t ++ '\n' :: '\n' :: body))
      = ['#' :: '#' :: ' ' :: t] := by
  have e : ('#' :: '#' :: ' ' :: (t ++ '\n' :: '\n' :: body) : List Char)
      = ('#' :: '#' :: ' ' :: t) ++ '\n' :: ('\n' :: body) := by simp
  rw [e, filterH2_split, filterH2_cons_nl, hb, List.append_nil]
  have hnl : ∀ c ∈ ('#' :: '#' :: ' ' :: t : List Char), c ≠ '\n' := by
    intro c hc
    simp only [List.mem_cons] at hc
    rcases hc with rfl | rfl | rfl | hc
    · decide
    · decide
    · decide
    · exact ht c hc
  unfold filterH2
  rw [splitLines, splitOnChar_no_sep '\n' _ hnl]
  simp [startsH2, listStartsWith]

theorem filterH2_renderSection (env : ToolEnv) (text p : String)
    (ht : ∀ c ∈ (patternTitle p).data, c ≠ '\n')
    (hb : filterH2 (sectionBody env text p).data = []) :
    filterH2 (renderSection env text p).data = [headingLineOf p] := by
  have e : (renderSection env text p).data
      = '#' :: '#' :: ' '
        :: ((patternTitle p).data ++ '\n' :: '\n' :: (sectionBody env text p).data) := by
    simp [renderSection, String.data_append]
  rw [e, filterH2_section _ _ ht hb, headingLineOf]

/-- Joining two markdown chunks with the `\n\n---\n\n` separator concatenates
their heading-line lists. -/
theorem filterH2_sepJoin (s J : String) :
    filterH2 ((s ++ "\n\n---\n\n" ++ J).data) = filterH2 s.data ++ filterH2 J.data := by
  have e : ((s ++ "\n\n---\n\n" ++ J).data : List Char)
      = s.data ++ '\n' :: ('\n' :: (['-', '-', '-'] ++ '\n' :: ('\n' :: J.data))) := by
    simp [String.data_append]
  rw [e, filterH2_split, filterH2_cons_nl, filterH2_split, filterH2_cons_nl]
  have : filterH2 ['-', '-', '-'] = [] := by decide
  rw [this, List.nil_append]

/-- The joined section list of an analyzer run contributes exactly one heading
per configured pattern, in order. -/
theorem filterH2_sections (env : ToolEnv) (text : String) (ps : List String)
    (ht : ∀ p ∈ ps, ∀ c ∈ (patternTitle p).data, c ≠ '\n')
    (hb : ∀ p ∈ ps, filterH2 (sectionBody env text p).data = []) :
    filterH2 (pyJoin "\n\n---\n\n" (ps.map (renderSection env text))).data
      = ps.map headingLineOf := by
  induction ps with
  | nil => rfl
  | cons p qs ih =>
    cases qs with
    | nil =>
      have h1 := filterH2_renderSection env text p
        (ht p (List.mem_cons_self p [])) (hb p (List.mem_cons_self p []))
      simpa [pyJoin] using h1
    | cons q rest =>
      have hpj : pyJoin "\n\n---\n\n" ((p :: q :: rest).map (renderSection env text))
          = renderSection env text p
            ++ "\n\n---\n\n"
            ++ pyJoin "\n\n---\n\n" ((q :: rest).map (renderSection env text)) := rfl
      rw [hpj, filterH2_sepJoin,
          filterH2_renderSection env text p
            (ht p (List.mem_cons_self p _)) (hb p (List.mem_cons_self p _)),
          ih (fun r hr => ht r (List.mem_cons_of_mem p hr))
            (fun r hr => hb r (List.mem_cons_of_mem p hr))]
      rfl

/-- The preamble of `run_content_analyzer`'s markdown (title, URL, domain and
mode lines, first separator) contributes no heading, provided the spliced
url, netloc and mode text have no heading lines of their own. -/
theorem filterH2_header_content (u n m J : List Char)
    (hu : filterH2 u = []) (hn : filterH2 n = []) (hm : filterH2 m = []) :
    filterH2 ("# Content Analysis".data
      ++ '\n' :: '\n' :: ("**URL:** ".data
        ++ (u ++ '\n' :: ("**Domain:** ".data
          ++ (n ++ '\n' :: ("**Mode:** ".data
            ++ (m ++ '\n' :: '\n' :: (['-', '-', '-'] ++ '\n' :: ('\n' :: J)))))))))
      = filterH2 J := by
  rw [filterH2_split, filterH2_cons_nl,
      filterH2_splice "**URL:** ".data u _ (by decide) (fun _ => rfl) hu,
      filterH2_splice "**Domain:** ".data n _ (by decide) (fun _ => rfl) hn]
  have e : ("**Mode:** ".data ++ (m ++ '\n' :: '\n'
        :: (['-', '-', '-'] ++ '\n' :: ('\n' :: J))) : List Char)
      = "**Mode:** ".data ++ (m ++ '\n'
        :: ('\n' :: (['-', '-', '-'] ++ '\n' :: ('\n' :: J)))) := by simp
  rw [e, filterH2_splice "**Mode:** ".data m _ (by decide) (fun _ => rfl) hm,
      filterH2_cons_nl, filterH2_split, filterH2_cons_nl]
  have h3 : filterH2 ("# Content Analysis".data) = [] := by decide
  have h4 : filterH2 ['-', '-', '-'] = [] := by decide
  rw [h3, h4, List.nil_append, List.nil_append]

/-- The preamble of `run_youtube_analyzer`'s markdown contributes no heading,
provided the spliced url and mode text have no heading lines of their own. -/
theorem filterH2_header_youtube (u m J : List Char)
    (hu : filterH2 u = []) (hm : filterH2 m = []) :
    filterH2 ("# YouTube Video Analysis".data
      ++ '\n' :: '\n' :: ("**URL:** ".data
        ++ (u ++ '\n' :: ("**Mode:** ".data
          ++ (m ++ '\n' :: '\n' :: (['-', '-', '-'] ++ '\n' :: ('\n' :: J)))))))
      = filterH2 J := by
  rw [filterH2_split, filterH2_cons_nl,
      filterH2_splice "**URL:** ".data u _ (by decide) (fun _ => rfl) hu]
  have e : ("**Mode:** ".data ++ (m ++ '\n' :: '\n'
        :: (['-', '-', '-'] ++ '\n' :: ('\n' :: J))) : List Char)
      = "**Mode:** ".data ++ (m ++ '\n'
        :: ('\n' :: (['-', '-', '-'] ++ '\n' :: ('\n' :: J)))) := by simp
  rw [e, filterH2_splice "**Mode:** ".data m _ (by decide) (fun _ => rfl) hm,
      filterH2_cons_nl, filterH2_split, filterH2_cons_nl]
  have h3 : filterH2 ("# YouTube Video Analysis".data) = [] := by decide
  have h4 : filterH2 ['-', '-', '-'] = [] := by decide
  rw [h3, h4, List.nil_append, List.nil_append]

/-- The full content of a `run_content_analyzer` run that reaches the pattern
stage has exactly the configured patterns' headings, in order, provided none
of the spliced external text (url, netloc, mode, pattern outputs) contains a
heading line itself. -/
theorem h2Lines_run_content_analyzer (env : ToolEnv) (url mode html : String)
    (hfab : env.fabricAvailable = true)
    (hfetch : env.fetch url = .ok html)
    (hlen : 100 ≤ (extract_text_from_html html).length)
    (hu : noH2 url) (hn : noH2 (urlparse url).netloc) (hm : noH2 mode)
    (ht : ∀ p ∈ contentPatterns mode, ∀ c ∈ (patternTitle p).data, c ≠ '\n')
    (hb : ∀ p ∈ contentPatterns mode,
      filterH2 (sectionBody env (extract_text_from_html html) p).data = []) :
    h2Lines (run_content_analyzer env url mode).content
      = (contentPatterns mode).map headingLineOf := by
  unfold run_content_analyzer
  rw [hfab, hfetch]
  have hnot : ¬ (extract_text_from_html html).length < 100 := not_lt.mpr hlen
  simp only [Bool.not_true, Bool.false_eq_true, if_false, if_neg hnot]
  unfold h2Lines
  have e : (("# Content Analysis\n\n**URL:** " ++ url ++ "\n**Domain:** "
        ++ (urlparse url).netloc ++ "\n**Mode:** " ++ mode ++ "\n\n---\n\n"
        ++ pyJoin "\n\n---\n\n"
          ((contentPatterns mode).map
            (renderSection env (extract_text_from_html html)))).data : List Char)
      = "# Content Analysis".data
        ++ '\n' :: '\n' :: ("**URL:** ".data
          ++ (url.data ++ '\n' :: ("**Domain:** ".data
            ++ ((urlparse url).netloc.data ++ '\n' :: ("**Mode:** ".data
              ++ (mode.data ++ '\n' :: '\n' :: (['-', '-', '-'] ++ '\n' :: ('\n'
                :: (pyJoin "\n\n---\n\n"
                  ((contentPatterns mode).map
                    (renderSection env (extract_text_from_html html)))).data))))))))
      := by
    simp [String.data_append]
  rw [e, filterH2_header_content _ _ _ _ hu hn hm,
      filterH2_sections env (extract_text_from_html html) (contentPatterns mode) ht hb]

/-- The full content of a `run_youtube_analyzer` run that reaches the pattern
stage has exactly the configured patterns' headings, in order, provided none
of the spliced external text (url, mode, pattern outputs) contains a heading
line itself. -/
theorem h2Lines_run_youtube_analyzer (env : ToolEnv) (url mode vid t : String)
    (hfab : env.fabricAvailable = true)
    (hvid : extract_video_id url = some vid) (hvne : vid ≠ "")
    (htr : env.transcript vid = some t)
    (hlen : 100 ≤ t.length)
    (hu : noH2 url) (hm : noH2 mode)
    (ht : ∀ p ∈ youtubePatterns mode, ∀ c ∈ (patternTitle p).data, c ≠ '\n')
    (hb : ∀ p ∈ youtubePatterns mode, filterH2 (sectionBody env t p).data = []) :
    h2Lines (run_youtube_analyzer env url mode).content
      = (youtubePatterns mode).map headingLineOf := by
  unfold run_youtube_analyzer
  rw [hfab, hvid]
  have hnot : ¬ t.length < 100 := not_lt.mpr hlen
  simp only [Bool.not_true, Bool.false_eq_true, if_false, if_neg hvne, htr, if_neg hnot]
  unfold h2Lines
  have e : (("# YouTube Video Analysis\n\n**URL:** " ++ url ++ "\n**Mode:** " ++ mode
        ++ "\n\n---\n\n"
        ++ pyJoin "\n\n---\n\n"
          ((youtubePatterns mode).map (renderSection env t))).data : List Char)
      = "# YouTube Video Analysis".data
        ++ '\n' :: '\n' :: ("**URL:** ".data
          ++ (url.data ++ '\n' :: ("**Mode:** ".data
            ++ (mode.data ++ '\n' :: '\n' :: (['-', '-', '-'] ++ '\n' :: ('\n'
              :: (pyJoin "\n\n---\n\n"
                ((youtubePatterns mode).map (renderSection env t))).data))))))
      := by
    simp [String.data_append]
  rw [e, filterH2_header_youtube _ _ _ hu hm,
      filterH2_sections env t (youtubePatterns mode) ht hb]

end Sidecar

namespace Sidecar

example : is_youtube_url "https://www.youtube.com/watch?v=abc" = true := by decide
example : is_youtube_url "https://example.com/watch?v=abc" = false := by decide
example : is_youtube_url "https://youtu.be/abc" = true := by decide
example : extract_video_id "https://youtu.be/abc" = some "abc" := by decide
example : extract_video_id "https://www.youtube.com/watch?v=xyz&t=1" = some "xyz" := by decide
example : extract_video_id "https://www.youtube.com/embed/qq" = some "qq" := by decide
example : extract_text_from_html "<p>tiny</p>" = "tiny" := by decide
example : 100 ≤ (extract_text_from_html htmlLong).length := by decide

/-! ## The claims -/

/-- C1, counterexample: a poll cycle that completes without raising but whose
poll returned an empty job list does NOT reset the consecutive-error counter:
starting from counter 1, after an empty non-raising cycle the counter is
still 1.  The reset `consecutive_errors = 0` sits inside `if jobs:`
(job_processor.py lines 202-211), so it is skipped for an empty list. -/
theorem claim_C1_counterexample :
    (runCycle happyDispatchEnv [] 1).raised = false
      ∧ (runCycle happyDispatchEnv [] 1).counter = 1 := by
  decide

/-- C1, amended: after a poll cycle that completes without raising an
exception AND whose poll returned a non-empty job list, the consecutive-error
counter is zero at the start of the next cycle; a non-raising cycle with an
empty job list leaves the counter unchanged instead. -/
theorem claim_C1 (env : DispatchEnv) (jobs : List Job) (n : Nat) :
    (jobs ≠ [] → (runCycle env jobs n).raised = false →
      (runCycle env jobs n).counter = 0)
    ∧ (runCycle env [] n).counter = n ∧ (runCycle env [] n).raised = false := by
  refine ⟨?_, by simp [runCycle], by simp [runCycle]⟩
  intro hne hra
  have hempty : jobs.isEmpty = false := by
    cases jobs with
    | nil => exact absurd rfl hne
    | cons j js => rfl
  rcases h : processJobsLoop env jobs with ⟨res, evs⟩
  cases res with
  | ok u => simp [runCycle, hempty, h]
  | error e =>
    have : (runCycle env jobs n).raised = true := by
      simp [runCycle, hempty, h]
    rw [this] at hra
    exact absurd hra (by decide)

theorem claim_C1_witness : (runCycle happyDispatchEnv [jobB] 3).counter = 0 :=
  (claim_C1 happyDispatchEnv [jobB] 3).1 (by decide) (by decide)

/-- C2: `calculate_backoff` (with the loop's default `min_backoff = 1`,
`max_backoff = 30`) returns 0 at 0 and `min 30 (2 ^ (n - 1))` for `n ≥ 1`;
in particular 1, 2, 4 at counts 1, 2, 3 and 30 (32 capped) at count 6. -/
theorem claim_C2 :
    (∀ n : Nat, calculate_backoff n 1 30 = if n = 0 then 0 else min 30 (2 ^ (n - 1)))
    ∧ calculate_backoff 1 1 30 = 1
    ∧ calculate_backoff 2 1 30 = 2
    ∧ calculate_backoff 3 1 30 = 4
    ∧ calculate_backoff 6 1 30 = 30 := by
  refine ⟨fun n => ?_, by decide, by decide, by decide, by decide⟩
  simp [calculate_backoff]

/-- C3: the code contradicts the per-job containment the spec requires.  In a
batch whose first job is missing its `id`, the `KeyError` from `process_job`
is caught by the per-job handler, but the handler's own log f-string
re-subscripts `job['id']` and raises again: the cycle aborts with no webhook
or execute call made for either job, the consecutive-error counter becomes 1
and the processor backs off for 1s.  By contrast a job missing only its
`input` IS contained per-job: the second job of the batch still runs and the
cycle completes with the counter reset to 0. -/
theorem claim_C3 :
    runCycle happyDispatchEnv [jobNoId, jobB] 0 = ⟨1, 1, true, []⟩
    ∧ runCycle happyDispatchEnv [jobNoInput, jobB] 0
      = ⟨0, 5, false,
         [Event.markStarted "a", Event.markStarted "b", Event.execute "b",
          Event.report ⟨"b", "completed", "s", some ⟨"ok", "markdown"⟩, none⟩]⟩ := by
  decide

/-- C4: whenever the internal tool run raises (returns an error), the execute
endpoint responds with HTTP 200 and body `{success: false, error: <message>}`;
in particular an input without a `url` yields HTTP 200 and
`{success: false, error: "URL is required"}`. -/
theorem claim_C4 (env : ToolEnv) (input : ToolInput) :
    (∀ e, run_tool env input = .error e →
      execute_tool env input = (200, ⟨false, none, some e⟩))
    ∧ (input.url = none →
      execute_tool env input = (200, ⟨false, none, some "URL is required"⟩)) := by
  constructor
  · intro e he
    simp [execute_tool, he]
  · intro hu
    have hrt : run_tool env input = .error "URL is required" := by
      simp [run_tool, hu]
    simp [execute_tool, hrt]

theorem claim_C4_witness :
    execute_tool envNoFabric ⟨none, none⟩
      = (200, ⟨false, none, some "URL is required"⟩) :=
  (claim_C4 envNoFabric ⟨none, none⟩).2 rfl

/-- C5: when the mark-started webhook fails for a job, `process_job` returns
`False` having made only the mark-started attempt: the executor is never
invoked and no job-complete report is sent for that job in that cycle. -/
theorem claim_C5 (env : DispatchEnv) (job : Job) (jid : String)
    (hid : job.id = some jid) (hms : env.markStarted jid = false) :
    process_job env job = (.ok false, [Event.markStarted jid])
    ∧ ∀ ev ∈ (process_job env job).2, ev.isExecute = false ∧ ev.isReport = false := by
  have h : process_job env job = (.ok false, [Event.markStarted jid]) := by
    simp [process_job, hid, hms]
  refine ⟨h, ?_⟩
  rw [h]
  intro ev hev
  simp only [List.mem_singleton] at hev
  subst hev
  exact ⟨rfl, rfl⟩

theorem claim_C5_witness :
    process_job denvMarkFail jobB = (.ok false, [Event.markStarted "b"])
    ∧ ∀ ev ∈ (process_job denvMarkFail jobB).2,
        ev.isExecute = false ∧ ev.isReport = false :=
  claim_C5 denvMarkFail jobB "b" rfl rfl

/-- C6: for every execute request with a (non-empty) url, `run_tool` routes to
the video path exactly when `is_youtube_url` holds, i.e. when the URL's
netloc is in the recognized video-host set; the routing decision is a
function of the netloc alone, for every mode (present, absent or arbitrary),
and the rest of the URL plays no role beyond its netloc. -/
theorem claim_C6 (env : ToolEnv) (url : String) (mode : Option String)
    (hne : url ≠ "") :
    (is_youtube_url url = videoHosts.contains (urlparse url).netloc)
    ∧ (is_youtube_url url = true →
        run_tool env ⟨some url, mode⟩
          = .ok (run_youtube_analyzer env url (mode.getD "quick")))
    ∧ (is_youtube_url url = false →
        run_tool env ⟨some url, mode⟩
          = .ok (run_content_analyzer env url (mode.getD "quick")))
    ∧ (∀ url2 : String, (urlparse url).netloc = (urlparse url2).netloc →
        is_youtube_url url = is_youtube_url url2) := by
  refine ⟨rfl, ?_, ?_, ?_⟩
  · intro hy
    simp [run_tool, hne, hy]
  · intro hy
    simp [run_tool, hne, hy]
  · intro url2 hn
    unfold is_youtube_url
    rw [hn]

theorem claim_C6_witness :
    run_tool envNoFabric ⟨some "https://youtu.be/abc", some "quick"⟩
      = .ok (run_youtube_analyzer envNoFabric "https://youtu.be/abc" "quick")
    ∧ run_tool envNoFabric ⟨some "https://example.com/a", some "quick"⟩
      = .ok (run_content_analyzer envNoFabric "https://example.com/a" "quick") :=
  ⟨(claim_C6 envNoFabric "https://youtu.be/abc" (some "quick") (by decide)).2.1
      (by decide),
   (claim_C6 envNoFabric "https://example.com/a" (some "quick") (by decide)).2.2.1
      (by decide)⟩

/-- C7, counterexample: a deep-mode run that reaches the pattern stage with
the 4 configured generic-path patterns can return markdown with 5 second-level
headings, because a pattern's own output may contain a `## ` line (here the
`extract_wisdom` output is `## Injected`): the content does not contain
exactly N heading lines. -/
theorem claim_C7_counterexample :
    h2Count (run_content_analyzer envInject "https://example.com/a" "deep").content = 5
    ∧ (contentPatterns "deep").length = 4 := by
  decide

/-- C7, amended: for a deep-mode execution reaching the pattern stage, the
returned markdown contains one generated second-level heading per configured
pattern, in the configured order (one per pattern, output or failure
placeholder); the total count of second-level heading lines equals N exactly
when none of the spliced external text (the URL, its netloc, or a pattern's
output) contains a second-level heading line itself — outputs containing
`## ` lines push the count above N, as the counterexample shows. -/
theorem claim_C7 :
    (∀ (env : ToolEnv) (url html : String),
      env.fabricAvailable = true →
      env.fetch url = .ok html →
      100 ≤ (extract_text_from_html html).length →
      noH2 url → noH2 (urlparse url).netloc →
      (∀ p ∈ contentPatterns "deep",
        filterH2 (sectionBody env (extract_text_from_html html) p).data = []) →
      h2Lines (run_content_analyzer env url "deep").content
          = (contentPatterns "deep").map headingLineOf
        ∧ h2Count (run_content_analyzer env url "deep").content
          = (contentPatterns "deep").length)
    ∧ (∀ (env : ToolEnv) (url vid t : String),
      env.fabricAvailable = true →
      extract_video_id url = some vid → vid ≠ "" →
      env.transcript vid = some t → 100 ≤ t.length →
      noH2 url →
      (∀ p ∈ youtubePatterns "deep", filterH2 (sectionBody env t p).data = []) →
      h2Lines (run_youtube_analyzer env url "deep").content
          = (youtubePatterns "deep").map headingLineOf
        ∧ h2Count (run_youtube_analyzer env url "deep").content
          = (youtubePatterns "deep").length) := by
  constructor
  · intro env url html hfab hfetch hlen hu hn hb
    have hm : noH2 "deep" := by decide
    have ht : ∀ p ∈ contentPatterns "deep", ∀ c ∈ (patternTitle p).data, c ≠ '\n' := by
      decide
    have h := h2Lines_run_content_analyzer env url "deep" html hfab hfetch hlen hu hn hm ht hb
    exact ⟨h, by rw [h2Count, h, List.length_map]⟩
  · intro env url vid t hfab hvid hvne htr hlen hu hb
    have hm : noH2 "deep" := by decide
    have ht : ∀ p ∈ youtubePatterns "deep", ∀ c ∈ (patternTitle p).data, c ≠ '\n' := by
      decide
    have h := h2Lines_run_youtube_analyzer env url "deep" vid t hfab hvid hvne htr hlen hu hm ht hb
    exact ⟨h, by rw [h2Count, h, List.length_map]⟩

theorem claim_C7_witness :
    h2Lines (run_content_analyzer envBenign "https://example.com/a" "deep").content
      = (contentPatterns "deep").map headingLineOf
    ∧ h2Count (run_content_analyzer envBenign "https://example.com/a" "deep").content
      = (contentPatterns "deep").length := by
  have hb : ∀ p ∈ contentPatterns "deep",
      filterH2 (sectionBody envBenign (extract_text_from_html htmlLong) p).data = [] := by
    intro p _
    show filterH2 ("hello world" : String).data = []
    decide
  exact claim_C7.1 envBenign "https://example.com/a" htmlLong rfl rfl (by decide)
    (by decide) (by decide) hb

/-- C8: an execution whose extracted text is shorter than 100 characters is a
success, not a tool-level error: the video path returns HTTP 200 with
`success: true`, the `# No Transcript` markdown body and no error field, and
the generic path likewise returns the `# Insufficient Content` body. -/
theorem claim_C8 :
    (∀ (env : ToolEnv) (url : String) (mode : Option String) (vid t : String),
      is_youtube_url url = true → url ≠ "" →
      env.fabricAvailable = true →
      extract_video_id url = some vid → vid ≠ "" →
      env.transcript vid = some t → t.length < 100 →
      execute_tool env ⟨some url, mode⟩
        = (200, ⟨true, some (noTranscriptResult url vid), none⟩))
    ∧ (∀ (env : ToolEnv) (url : String) (mode : Option String) (html : String),
      is_youtube_url url = false → url ≠ "" →
      env.fabricAvailable = true →
      env.fetch url = .ok html →
      (extract_text_from_html html).length < 100 →
      execute_tool env ⟨some url, mode⟩
        = (200, ⟨true, some (insufficientContentResult url), none⟩)) := by
  constructor
  · intro env url mode vid t hy hne hfab hvid hvne htr hlen
    have hya : run_youtube_analyzer env url (mode.getD "quick")
        = noTranscriptResult url vid := by
      unfold run_youtube_analyzer
      rw [hfab, hvid]
      simp [hvne, htr, hlen]
    simp [execute_tool, run_tool, hne, hy, hya]
  · intro env url mode html hy hne hfab hfetch hlen
    have hca : run_content_analyzer env url (mode.getD "quick")
        = insufficientContentResult url := by
      unfold run_content_analyzer
      rw [hfab, hfetch]
      simp [hlen]
    simp [execute_tool, run_tool, hne, hy, hca]

theorem claim_C8_witness :
    execute_tool envShortTranscript ⟨some "https://youtu.be/abc", none⟩
      = (200, ⟨true, some (noTranscriptResult "https://youtu.be/abc" "abc"), none⟩)
    ∧ execute_tool envShortPage ⟨some "https://example.com/p", none⟩
      = (200, ⟨true, some (insufficientContentResult "https://example.com/p"), none⟩) :=
  ⟨claim_C8.1 envShortTranscript "https://youtu.be/abc" none "abc" "short"
      (by decide) (by decide) rfl (by decide) (by decide) rfl (by decide),
   claim_C8.2 envShortPage "https://example.com/p" none "<p>tiny</p>"
      (by decide) (by decide) rfl rfl (by decide)⟩

/-- C9, counterexample: an unrecognized mode does NOT make the executor behave
exactly as if mode were `quick`: the mode string is echoed into the returned
markdown, so the same request with mode `bogus` and mode `quick` produce
different results (here, differing `Mode:` lines of the
`# Analysis Unavailable` body). -/
theorem claim_C9_counterexample :
    run_tool envNoFabric ⟨some "https://example.com/a", some "bogus"⟩
      ≠ run_tool envNoFabric ⟨some "https://example.com/a", some "quick"⟩ := by
  decide

/-- C9, amended: a missing mode behaves exactly as mode `quick` (the default
is substituted before any use), and an unrecognized mode selects the quick
pattern set on both paths and is not rejected as an error — but the supplied
mode string is still echoed in the markdown, so behaviour is not literally
identical to `quick` for unrecognized modes. -/
theorem claim_C9 (env : ToolEnv) (url : String) (m : String) :
    (run_tool env ⟨some url, none⟩ = run_tool env ⟨some url, some "quick"⟩)
    ∧ (m ∉ (["quick", "standard", "deep"] : List String) →
        youtubePatterns m = youtubePatterns "quick"
        ∧ contentPatterns m = contentPatterns "quick")
    ∧ (url ≠ "" → ∃ r, run_tool env ⟨some url, some m⟩ = .ok r) := by
  refine ⟨rfl, ?_, ?_⟩
  · intro hm
    simp only [List.mem_cons, List.not_mem_nil, or_false, not_or] at hm
    obtain ⟨h1, h2, h3⟩ := hm
    constructor
    · simp [youtubePatterns, h1, h2, h3]
    · simp [contentPatterns, h1, h2, h3]
  · intro hne
    by_cases hy : is_youtube_url url
    · exact ⟨run_youtube_analyzer env url m, by simp [run_tool, hne, hy]⟩
    · exact ⟨run_content_analyzer env url m, by simp [run_tool, hne, hy]⟩

theorem claim_C9_witness :
    youtubePatterns "bogus" = youtubePatterns "quick"
    ∧ contentPatterns "bogus" = contentPatterns "quick" :=
  (claim_C9 envNoFabric "https://example.com/a" "bogus").2.1 (by decide)

/-- C10: when the generic-path page fetch fails, the executor returns HTTP 200
with `success: true` and the `# Fetch Failed` markdown as the result, so a
dispatcher wired to this executor reports the job to the queue with status
`completed` (not `failed`): its calls are mark-started, execute, then a
job-complete report whose payload has status `completed` and the
`# Fetch Failed` body as result. -/
theorem claim_C10 (env : ToolEnv) (url e : String) (mode : Option String)
    (jid secret : String) (denv : DispatchEnv)
    (hy : is_youtube_url url = false) (hne : url ≠ "")
    (hfab : env.fabricAvailable = true) (hfetch : env.fetch url = .error e)
    (hms : denv.markStarted jid = true)
    (hcall : ∀ inp, denv.callExecute inp = .ok (execute_tool env inp).2) :
    execute_tool env ⟨some url, mode⟩
      = (200, ⟨true, some (fetchFailedResult url e), none⟩)
    ∧ process_job denv ⟨some jid, some ⟨some url, mode⟩, some secret⟩
      = (.ok (denv.reportOk
            ⟨jid, "completed", secret, some (fetchFailedResult url e), none⟩),
         [Event.markStarted jid, Event.execute jid,
          Event.report ⟨jid, "completed", secret, some (fetchFailedResult url e), none⟩]) := by
  have hca : run_content_analyzer env url (mode.getD "quick")
      = fetchFailedResult url e := by
    unfold run_content_analyzer
    rw [hfab, hfetch]
    simp
  have hexec : execute_tool env ⟨some url, mode⟩
      = (200, ⟨true, some (fetchFailedResult url e), none⟩) := by
    simp [execute_tool, run_tool, hne, hy, hca]
  refine ⟨hexec, ?_⟩
  have hej : execute_job denv ⟨some jid, some ⟨some url, mode⟩, some secret⟩
      = (.ok (true, some (fetchFailedResult url e), none), [Event.execute jid]) := by
    simp [execute_job, hcall ⟨some url, mode⟩, hexec]
  simp [process_job, hms, hej, mkReportPayload]

theorem claim_C10_witness :
    execute_tool envFetchFail ⟨some "https://example.com/a", none⟩
      = (200, ⟨true, some (fetchFailedResult "https://example.com/a" "boom"), none⟩)
    ∧ process_job denvC10 ⟨some "j1", some ⟨some "https://example.com/a", none⟩, some "s"⟩
      = (.ok (denvC10.reportOk
            ⟨"j1", "completed", "s",
             some (fetchFailedResult "https://example.com/a" "boom"), none⟩),
         [Event.markStarted "j1", Event.execute "j1",
          Event.report ⟨"j1", "completed", "s",
            some (fetchFailedResult "https://example.com/a" "boom"), none⟩]) :=
  claim_C10 envFetchFail "https://example.com/a" "boom" none "j1" "s" denvC10
    (by decide) (by decide) rfl rfl rfl (fun inp => rfl)

end Sidecar
